import Mathlib

/-!
# Verification of the vida-loka-estrategia game engine

Shallow embedding of the Game State & Resolution Engine
(`internal/game/manager.go`, `internal/types/game.go`,
`internal/game/utils.go`) of the `vida-loka-estrategia` repository.

Go maps are modelled as association lists, pointers to records as the
records themselves (functional update standing for in-place mutation),
`time.Time` values as natural numbers, generated UUIDs and random draws
as explicit parameters, and the synchronous persistence flush
(`saveState`) as a boolean oracle `saveOk`: when it is `false` the
`SaveGameState` call is taken to fail, and the wrapper returns the
`"failed to save game state"` error exactly where the Go code does.
Go's `int(float64(x) * (1 + p/100.0))` reward scaling is modelled by
exact rational scaling followed by truncation toward zero, matching the
integer-truncation semantics of Go's float-to-int conversion.
-/

set_option maxHeartbeats 1000000

deriving instance DecidableEq for Except

namespace VidaLoka

/-- Truncation toward zero of `x * (100 + pct) / 100`, the exact-arithmetic
model of Go's `int(float64(x) * (1 + pct/100.0))`. -/
def scaleTrunc (x pct : Int) : Int :=
  Int.tdiv (x * (100 + pct)) 100

/-- Truncation toward zero of `x * 12 / 10`, the exact-arithmetic model of
Go's `int(float64(x) * 1.2)` favorite-action bonus. -/
def favScale (x : Int) : Int :=
  Int.tdiv (x * 12) 10

/-- `types.Outcome` (internal/types/game.go). -/
structure Outcome where
  description : String
  xpChange : Int
  moneyChange : Int
  influenceChange : Int
  stressChange : Int
  newZone : String
  newSubZone : String
  nextEventID : String
  deriving DecidableEq

/-- `types.Character` (internal/types/game.go); `ctype` stands for the Go
field `Type`, and the two timestamps are modelled as naturals. -/
structure Character where
  id : String
  name : String
  ctype : String
  description : String
  createdAt : Nat
  updatedAt : Nat
  carisma : Int
  proficiencia : Int
  rede : Int
  moralidade : Int
  resiliencia : Int
  favoriteActions : List String
  naturalPredators : List String
  evolutionPaths : List String
  deriving DecidableEq

/-- `types.EventOption` (internal/types/game.go). -/
structure EventOption where
  id : String
  description : String
  requiredAttribute : String
  difficultyLevel : Int
  successOutcome : Outcome
  failureOutcome : Outcome
  deriving DecidableEq

/-- `types.Event` (internal/types/game.go). -/
structure Event where
  id : String
  name : String
  description : String
  minXP : Int
  minMoney : Int
  minInfluence : Int
  requiredZone : List String
  options : List EventOption
  deriving DecidableEq

/-- `types.Action` (internal/types/game.go). -/
structure Action where
  id : String
  name : String
  description : String
  bonusAttribute : String
  baseOutcome : Outcome
  deriving DecidableEq

/-- `types.SubZone` (internal/types/game.go). -/
structure SubZone where
  id : String
  name : String
  description : String
  riskLevel : Int
  rewardMultiplier : Int
  availableActions : List String
  deriving DecidableEq

/-- `types.Zone` (internal/types/game.go). -/
structure Zone where
  id : String
  name : String
  description : String
  subZones : List SubZone
  riskLevel : Int
  rewardMultiplier : Int
  commonCharacters : List String
  deriving DecidableEq

/-- `types.Decision` (internal/types/game.go); the timestamp is a natural. -/
structure Decision where
  id : String
  eventID : String
  choice : String
  timestamp : Nat
  outcome : String
  xpChange : Int
  moneyChange : Int
  influenceChange : Int
  stressChange : Int
  deriving DecidableEq

/-- `types.Player` (internal/types/game.go); the `*Character` and `*Event`
pointers become `Option` values and timestamps become naturals. -/
structure Player where
  id : String
  phoneNumber : String
  name : String
  createdAt : Nat
  lastActiveAt : Nat
  xp : Int
  money : Int
  influence : Int
  status : String
  stress : Int
  currentCharacter : Option Character
  currentZone : String
  currentSubZone : String
  lastEventAt : Nat
  currentEvent : Option Event
  decisionHistory : List Decision
  deriving DecidableEq

/-- `types.GameState` (internal/types/game.go); the Go string-keyed maps
become association lists. -/
structure GameState where
  players : List (String × Player)
  characters : List (String × Character)
  events : List (String × Event)
  actions : List (String × Action)
  zones : List (String × Zone)
  deriving DecidableEq

/-- The part of `config.Config.Game` the engine reads at registration. -/
structure Config where
  defaultXP : Int
  defaultMoney : Int
  defaultInfluence : Int
  deriving DecidableEq

/-- Go map read `m[k]` on a string-keyed map. -/
def lookupA {α : Type} (l : List (String × α)) (k : String) : Option α :=
  match l with
  | [] => none
  | (k', v) :: t => if k' = k then some v else lookupA t k

/-- Go map write `m[k] = v` on a string-keyed map. -/
def insertA {α : Type} (l : List (String × α)) (k : String) (v : α) :
    List (String × α) :=
  match l with
  | [] => [(k, v)]
  | (k', v') :: t => if k' = k then (k, v) :: t else (k', v') :: insertA t k v

theorem lookupA_insertA {α : Type} (l : List (String × α)) (k k' : String)
    (v : α) :
    lookupA (insertA l k v) k' = if k = k' then some v else lookupA l k' := by
  induction l with
  | nil => simp [insertA, lookupA]
  | cons hd t ih =>
    obtain ⟨k0, v0⟩ := hd
    simp only [insertA]
    by_cases h0 : k0 = k <;> by_cases h1 : k = k' <;>
      simp_all [lookupA]

/-- The attribute-dispatch `switch` of `PerformAction` /
`ProcessEventChoice` (manager.go lines 232–246 and 409–423). -/
def attributeValueOf (c : Character) (attr : String) : Int :=
  match attr with
  | "carisma" => c.carisma
  | "proficiencia" => c.proficiencia
  | "rede" => c.rede
  | "moralidade" => c.moralidade
  | "resiliencia" => c.resiliencia
  | _ => 0

/-- The two sequential stress-bound checks of `PerformAction` /
`ProcessEventChoice` (manager.go lines 281–286 and 443–448). -/
def clampStress (s : Int) : Int :=
  let s1 := if s < 0 then 0 else s
  if s1 > 100 then 100 else s1

theorem clampStress_bounds (s : Int) :
    0 ≤ clampStress s ∧ clampStress s ≤ 100 := by
  unfold clampStress
  dsimp only
  split <;> split <;> omega

/-- The reward-scaling chain of `PerformAction` (manager.go lines
248–272): attribute bonus on the three non-stress deltas, then the
subzone reward multiplier, then the flat 1.2 favorite-action bonus. -/
def computeOutcome (base : Outcome) (attributeValue rewardMultiplier : Int)
    (isFavorite : Bool) : Outcome :=
  let o1 := { base with
    xpChange := scaleTrunc base.xpChange attributeValue
    moneyChange := scaleTrunc base.moneyChange attributeValue
    influenceChange := scaleTrunc base.influenceChange attributeValue }
  let o2 := { o1 with
    xpChange := scaleTrunc o1.xpChange rewardMultiplier
    moneyChange := scaleTrunc o1.moneyChange rewardMultiplier
    influenceChange := scaleTrunc o1.influenceChange rewardMultiplier }
  if isFavorite then
    { o2 with
      xpChange := favScale o2.xpChange
      moneyChange := favScale o2.moneyChange
      influenceChange := favScale o2.influenceChange }
  else o2

/-- The persistence-flush wrapper shared by every mutating operation:
the Go code returns early (state untouched beyond the point reached) on
a resolver error, otherwise performs the in-memory mutation and then
calls `saveState`; when the flush fails the already-performed mutation
is kept and the `"failed to save game state"` error is returned
(manager.go, the `if err := gm.saveState(); err != nil` blocks). -/
def withSave {α : Type} (gs : GameState) (saveOk : Bool)
    (core : Except String (α × GameState)) : Except String α × GameState :=
  match core with
  | .error e => (.error e, gs)
  | .ok (a, gs') =>
    if saveOk then (.ok a, gs') else (.error "failed to save game state", gs')

/-- `GameManager.RegisterPlayer` up to the `saveState` call (manager.go
lines 78–104); `id` is the generated UUID and `now` the clock value. -/
def RegisterPlayerCore (gs : GameState) (cfg : Config) (id : String)
    (now : Nat) (phoneNumber name : String) :
    Except String (Player × GameState) :=
  match lookupA gs.players phoneNumber with
  | some _ => .error "player already registered"
  | none =>
    let player : Player := {
      id := id
      phoneNumber := phoneNumber
      name := name
      createdAt := now
      lastActiveAt := now
      xp := cfg.defaultXP
      money := cfg.defaultMoney
      influence := cfg.defaultInfluence
      status := "active"
      stress := 0
      currentCharacter := none
      currentZone := ""
      currentSubZone := ""
      lastEventAt := 0
      currentEvent := none
      decisionHistory := [] }
    .ok (player, { gs with players := insertA gs.players phoneNumber player })

/-- `GameManager.RegisterPlayer` (manager.go lines 78–111). -/
def RegisterPlayer (gs : GameState) (cfg : Config) (saveOk : Bool)
    (id : String) (now : Nat) (phoneNumber name : String) :
    Except String Player × GameState :=
  withSave gs saveOk (RegisterPlayerCore gs cfg id now phoneNumber name)

/-- The starting-location `switch` on the character type in
`SelectCharacter` (manager.go lines 148–167). -/
def startingLocation (ctype : String) : String × String :=
  match ctype with
  | "nerd_hacker" => ("copacabana", "praia")
  | "traficante" => ("centro", "lapa")
  | "policial" => ("centro", "delegacia")
  | "artista" => ("ipanema", "praia")
  | "empresario" => ("barra", "shopping")
  | _ => ("centro", "lapa")

/-- `GameManager.SelectCharacter` up to the `saveState` call (manager.go
lines 127–167). -/
def SelectCharacterCore (gs : GameState) (now : Nat)
    (phoneNumber characterID : String) :
    Except String (Unit × GameState) :=
  match lookupA gs.players phoneNumber with
  | none => .error "player not found"
  | some player =>
    match lookupA gs.characters characterID with
    | none => .error "character not found"
    | some character =>
      let loc := startingLocation character.ctype
      let player' := { player with
        currentCharacter := some character
        lastActiveAt := now
        currentZone := loc.1
        currentSubZone := loc.2 }
      .ok ((), { gs with players := insertA gs.players phoneNumber player' })

/-- `GameManager.SelectCharacter` (manager.go lines 127–175). -/
def SelectCharacter (gs : GameState) (saveOk : Bool) (now : Nat)
    (phoneNumber characterID : String) : Except String Unit × GameState :=
  withSave gs saveOk (SelectCharacterCore gs now phoneNumber characterID)

/-- The player-record update performed by `PerformAction` after the
outcome is computed (manager.go lines 274–303): apply the deltas, clamp
stress, refresh `LastActiveAt`, append the Decision record. -/
def performedPlayer (player : Player) (outcome : Outcome)
    (decisionId : String) (now : Nat) (actionID actionName : String) :
    Player :=
  { player with
    xp := player.xp + outcome.xpChange
    money := player.money + outcome.moneyChange
    influence := player.influence + outcome.influenceChange
    stress := clampStress (player.stress + outcome.stressChange)
    lastActiveAt := now
    decisionHistory := player.decisionHistory ++
      [{ id := decisionId
         eventID := "action_" ++ actionID
         choice := actionID
         timestamp := now
         outcome := actionName
         xpChange := outcome.xpChange
         moneyChange := outcome.moneyChange
         influenceChange := outcome.influenceChange
         stressChange := outcome.stressChange }] }

/-- `GameManager.PerformAction` up to the `saveState` call (manager.go
lines 178–303); `decisionId` is the generated UUID and `now` the clock
value. -/
def PerformActionCore (gs : GameState) (decisionId : String) (now : Nat)
    (phoneNumber actionID : String) :
    Except String (Outcome × GameState) :=
  match lookupA gs.players phoneNumber with
  | none => .error "player not found"
  | some player =>
    match player.currentCharacter with
    | none => .error "player has no character selected"
    | some character =>
      match lookupA gs.actions actionID with
      | none => .error "action not found"
      | some action =>
        match lookupA gs.zones player.currentZone with
        | none => .error "invalid player zone"
        | some zone =>
          match zone.subZones.find? (fun sz => sz.id == player.currentSubZone) with
          | none => .error "invalid player subzone"
          | some currentSubZone =>
            if currentSubZone.availableActions.contains actionID then
              let attributeValue :=
                attributeValueOf character action.bonusAttribute
              let outcome := computeOutcome action.baseOutcome attributeValue
                currentSubZone.rewardMultiplier
                (character.favoriteActions.contains actionID)
              let player' := performedPlayer player outcome decisionId now
                actionID action.name
              .ok (outcome,
                { gs with players := insertA gs.players phoneNumber player' })
            else .error "action not available in current location"

/-- `GameManager.PerformAction` (manager.go lines 178–311). -/
def PerformAction (gs : GameState) (saveOk : Bool) (decisionId : String)
    (now : Nat) (phoneNumber actionID : String) :
    Except String Outcome × GameState :=
  withSave gs saveOk (PerformActionCore gs decisionId now phoneNumber actionID)

/-- The eligibility filter of `GenerateEvent` (manager.go lines
331–352): minimum XP/money/influence gates and the optional
required-zone list (empty list means no zone restriction). -/
def eventEligible (player : Player) (event : Event) : Bool :=
  if player.xp < event.minXP || player.money < event.minMoney ||
      player.influence < event.minInfluence then
    false
  else if event.requiredZone.length > 0 then
    event.requiredZone.contains player.currentZone
  else
    true

/-- `GameManager.GenerateEvent` up to the `saveState` call (manager.go
lines 314–363); `pick` stands for the `rand.Intn(len(eligibleEvents))`
draw, reduced modulo the number of eligible events. -/
def GenerateEventCore (gs : GameState) (now : Nat) (pick : Nat)
    (phoneNumber : String) : Except String (Event × GameState) :=
  match lookupA gs.players phoneNumber with
  | none => .error "player not found"
  | some player =>
    match player.currentCharacter with
    | none => .error "player has no character selected"
    | some _ =>
      let eligibleEvents :=
        (gs.events.map Prod.snd).filter (eventEligible player)
      if h : eligibleEvents.length = 0 then
        .error "no eligible events found for player"
      else
        let selectedEvent := eligibleEvents.get
          ⟨pick % eligibleEvents.length,
           Nat.mod_lt _ (Nat.pos_of_ne_zero h)⟩
        let player' := { player with lastEventAt := now }
        .ok (selectedEvent,
          { gs with players := insertA gs.players phoneNumber player' })

/-- `GameManager.GenerateEvent` (manager.go lines 314–371). -/
def GenerateEvent (gs : GameState) (saveOk : Bool) (now : Nat) (pick : Nat)
    (phoneNumber : String) : Except String Event × GameState :=
  withSave gs saveOk (GenerateEventCore gs now pick phoneNumber)

/-- The player-record update performed by `ProcessEventChoice` after the
outcome is determined (manager.go lines 436–473): apply the deltas,
clamp stress, move to the outcome's new zone/subzone when non-empty,
refresh `LastActiveAt`, append the Decision record. -/
def choicePlayer (player : Player) (outcome : Outcome) (decisionId : String)
    (now : Nat) (eventID optionID : String) (roll difficulty : Int) :
    Player :=
  { player with
    xp := player.xp + outcome.xpChange
    money := player.money + outcome.moneyChange
    influence := player.influence + outcome.influenceChange
    stress := clampStress (player.stress + outcome.stressChange)
    currentZone :=
      if outcome.newZone ≠ "" then outcome.newZone else player.currentZone
    currentSubZone :=
      if outcome.newSubZone ≠ "" then outcome.newSubZone
      else player.currentSubZone
    lastActiveAt := now
    decisionHistory := player.decisionHistory ++
      [{ id := decisionId
         eventID := eventID
         choice := optionID
         timestamp := now
         outcome := "Roll: " ++ toString roll ++ ", Required: " ++
           toString difficulty ++ ", Success: " ++
           toString (decide (roll ≥ difficulty))
         xpChange := outcome.xpChange
         moneyChange := outcome.moneyChange
         influenceChange := outcome.influenceChange
         stressChange := outcome.stressChange }] }

/-- `GameManager.ProcessEventChoice` up to the `saveState` call
(manager.go lines 374–473); `die` stands for the `rand.Intn(20) + 1`
draw, so `roll = die + attributeValue` as at line 426. -/
def ProcessEventChoiceCore (gs : GameState) (decisionId : String)
    (now : Nat) (die : Int) (phoneNumber eventID optionID : String) :
    Except String (Outcome × GameState) :=
  match lookupA gs.players phoneNumber with
  | none => .error "player not found"
  | some player =>
    match player.currentCharacter with
    | none => .error "player has no character selected"
    | some character =>
      match lookupA gs.events eventID with
      | none => .error "event not found"
      | some event =>
        match event.options.find? (fun option => option.id == optionID) with
        | none => .error "option not found"
        | some selectedOption =>
          let attributeValue :=
            attributeValueOf character selectedOption.requiredAttribute
          let roll := die + attributeValue
          let outcome :=
            if roll ≥ selectedOption.difficultyLevel then
              selectedOption.successOutcome
            else
              selectedOption.failureOutcome
          let player' := choicePlayer player outcome decisionId now eventID
            optionID roll selectedOption.difficultyLevel
          .ok (outcome,
            { gs with players := insertA gs.players phoneNumber player' })

/-- `GameManager.ProcessEventChoice` (manager.go lines 374–481). -/
def ProcessEventChoice (gs : GameState) (saveOk : Bool)
    (decisionId : String) (now : Nat) (die : Int)
    (phoneNumber eventID optionID : String) :
    Except String Outcome × GameState :=
  withSave gs saveOk
    (ProcessEventChoiceCore gs decisionId now die phoneNumber eventID optionID)

/-- `GameManager.SetPlayerStatus` up to the `saveState` call (manager.go
lines 484–501). -/
def SetPlayerStatusCore (gs : GameState) (now : Nat)
    (phoneNumber status : String) : Except String (Unit × GameState) :=
  match lookupA gs.players phoneNumber with
  | none => .error "player not found"
  | some player =>
    if status ≠ "active" ∧ status ≠ "sleeping" ∧ status ≠ "autopilot" then
      .error "invalid status"
    else
      let player' := { player with status := status, lastActiveAt := now }
      .ok ((), { gs with players := insertA gs.players phoneNumber player' })

/-- `GameManager.SetPlayerStatus` (manager.go lines 484–509). -/
def SetPlayerStatus (gs : GameState) (saveOk : Bool) (now : Nat)
    (phoneNumber status : String) : Except String Unit × GameState :=
  withSave gs saveOk (SetPlayerStatusCore gs now phoneNumber status)

/-- The zone filter of `TriggerRandomEvent` (manager.go lines 783–791):
an event is collected exactly when its `RequiredZone` list contains the
player's current zone — the minimum-XP/money/influence gates are not
consulted and an empty list never matches. -/
def eventAvailableForZone (player : Player) (event : Event) : Bool :=
  event.requiredZone.contains player.currentZone

/-- `GameManager.TriggerRandomEvent` (manager.go lines 764–800): looks
the player up by `ID` (not phone number), filters events by
`eventAvailableForZone`, and picks one with `gm.diceRoller.Roll(n) - 1`;
`pick` stands for that zero-based draw, reduced modulo the number of
available events. The function mutates nothing and never saves. -/
def TriggerRandomEvent (gs : GameState) (pick : Nat) (playerID : String) :
    Except String Event :=
  match (gs.players.map Prod.snd).find? (fun p => p.id == playerID) with
  | none => .error "player not found"
  | some player =>
    let availableEvents :=
      (gs.events.map Prod.snd).filter (eventAvailableForZone player)
    if h : availableEvents.length = 0 then
      .error "no events available for current zone"
    else
      .ok (availableEvents.get
        ⟨pick % availableEvents.length, Nat.mod_lt _ (Nat.pos_of_ne_zero h)⟩)

/-! ## Concrete fixtures used by witnesses and counterexamples -/

/-- A configuration with the default starting counters. -/
def cfg0 : Config := { defaultXP := 0, defaultMoney := 100, defaultInfluence := 0 }

/-- A character with Proficiency 4 and Charisma 3 whose favorite action is
`acao1`. -/
def char1 : Character :=
  { id := "char1", name := "Haxx", ctype := "nerd_hacker", description := "",
    createdAt := 0, updatedAt := 0,
    carisma := 3, proficiencia := 4, rede := 2, moralidade := 5, resiliencia := 3,
    favoriteActions := ["acao1"], naturalPredators := [], evolutionPaths := [] }

/-- A second, distinct character. -/
def char2 : Character :=
  { char1 with
    id := "char2", name := "Outro", ctype := "artista"
    favoriteActions := [] }

/-- A base outcome granting 10 XP and nothing else. -/
def baseOut1 : Outcome :=
  { description := "base", xpChange := 10, moneyChange := 0,
    influenceChange := 0, stressChange := 0,
    newZone := "", newSubZone := "", nextEventID := "" }

/-- An action whose bonus attribute is Proficiency, base outcome `baseOut1`. -/
def acao1 : Action :=
  { id := "acao1", name := "Estudar", description := "",
    bonusAttribute := "proficiencia", baseOutcome := baseOut1 }

/-- A subzone with reward multiplier 100 where `acao1` is available. -/
def praia : SubZone :=
  { id := "praia", name := "Praia", description := "",
    riskLevel := 1, rewardMultiplier := 100, availableActions := ["acao1"] }

/-- The zone holding `praia`. -/
def copacabana : Zone :=
  { id := "copacabana", name := "Copacabana", description := "",
    subZones := [praia], riskLevel := 1, rewardMultiplier := 100,
    commonCharacters := [] }

/-- An event option checking Charisma against difficulty 14 whose success
outcome moves the player to the uncataloged zone `terra_do_nunca`. -/
def optA : EventOption :=
  { id := "opt_a", description := "Tentar a sorte",
    requiredAttribute := "carisma", difficultyLevel := 14,
    successOutcome :=
      { description := "s", xpChange := 10, moneyChange := 50,
        influenceChange := 5, stressChange := -5,
        newZone := "terra_do_nunca", newSubZone := "", nextEventID := "" },
    failureOutcome :=
      { description := "f", xpChange := 5, moneyChange := -20,
        influenceChange := -2, stressChange := 10,
        newZone := "", newSubZone := "", nextEventID := "" } }

/-- An event with no minimums and no zone restriction. -/
def ev1 : Event :=
  { id := "ev1", name := "Evento", description := "",
    minXP := 0, minMoney := 0, minInfluence := 0,
    requiredZone := [], options := [optA] }

/-- An event whose XP minimum no fixture player meets. -/
def evHard : Event :=
  { ev1 with id := "ev_hard", minXP := 1000000 }

/-- An event restricted to `copacabana` with an XP minimum no fixture
player meets. -/
def evZona : Event :=
  { ev1 with id := "ev_zona", minXP := 1000000, requiredZone := ["copacabana"] }

/-- An active player at `copacabana`/`praia` playing `char1`. -/
def player1 : Player :=
  { id := "p1", phoneNumber := "5521", name := "Alice",
    createdAt := 0, lastActiveAt := 0,
    xp := 0, money := 100, influence := 0, status := "active", stress := 0,
    currentCharacter := some char1,
    currentZone := "copacabana", currentSubZone := "praia",
    lastEventAt := 0, currentEvent := none, decisionHistory := [] }

/-- The empty game state. -/
def gsEmpty : GameState :=
  { players := [], characters := [], events := [], actions := [], zones := [] }

/-- A state with `player1` registered and the full fixture catalog. -/
def gsA : GameState :=
  { players := [("5521", player1)],
    characters := [("char1", char1), ("char2", char2)],
    events := [("ev1", ev1)],
    actions := [("acao1", acao1)],
    zones := [("copacabana", copacabana)] }

/-- `gsA` with only the too-hard event loaded. -/
def gsHard : GameState :=
  { gsA with events := [("ev_hard", evHard)] }

/-- `gsA` with only the zone-gated too-hard event loaded. -/
def gsB : GameState :=
  { gsA with events := [("ev_zona", evZona)] }

/-- `gsA` with no players registered yet. -/
def gsCat : GameState :=
  { gsA with players := [] }

/-- The player record `RegisterPlayer` creates for `"5521"`/`"Alice"`
under `cfg0` with UUID `"id1"` at time 0. -/
def regPlayer1 : Player :=
  { id := "id1", phoneNumber := "5521", name := "Alice",
    createdAt := 0, lastActiveAt := 0,
    xp := 0, money := 100, influence := 0, status := "active", stress := 0,
    currentCharacter := none, currentZone := "", currentSubZone := "",
    lastEventAt := 0, currentEvent := none, decisionHistory := [] }

/-!## Helper lemmas about the persistence wrapper and the cores -/

theorem withSave_state {α : Type} (gs : GameState) (saveOk : Bool)
    (core : Except String (α × GameState)) :
    (withSave gs saveOk core).2 = (withSave gs true core).2 := by
  cases core with
  | error e => rfl
  | ok p => obtain ⟨a, gs'⟩ := p; cases saveOk <;> rfl

theorem withSave_fail {α : Type} (gs : GameState)
    (core : Except String (α × GameState)) (a : α)
    (h : (withSave gs true core).1 = .ok a) :
    (withSave gs false core).1 = .error "failed to save game state" := by
  cases core with
  | error e => exact Except.noConfusion h
  | ok p => obtain ⟨b, gs'⟩ := p; rfl

theorem withSave_ok {α : Type} (gs : GameState)
    (core : Except String (α × GameState)) (a : α)
    (h : (withSave gs true core).1 = .ok a) :
    core = .ok (a, (withSave gs true core).2) := by
  cases core with
  | error e => exact Except.noConfusion h
  | ok p =>
    obtain ⟨b, gs'⟩ := p
    simp only [withSave, if_pos] at h ⊢
    cases h
    rfl

theorem registerPlayerCore_ok (gs : GameState) (cfg : Config) (id : String)
    (now : Nat) (pn nm : String) (p : Player) (gs' : GameState)
    (h : RegisterPlayerCore gs cfg id now pn nm = .ok (p, gs')) :
    lookupA gs.players pn = none ∧ p.stress = 0 ∧
    gs' = { gs with
        players := insertA gs.players pn p } := by
  unfold RegisterPlayerCore at h
  cases hp : lookupA gs.players pn with
  | some q => rw [hp] at h; exact Except.noConfusion h
  | none =>
    rw [hp] at h
    simp only [Except.ok.injEq, Prod.mk.injEq] at h
    obtain ⟨h1, h2⟩ := h
    subst h1
    subst h2
    exact ⟨rfl, rfl, rfl⟩

theorem selectCharacterCore_ok (gs : GameState) (now : Nat)
    (pn cid : String) (u : Unit) (gs' : GameState)
    (h : SelectCharacterCore gs now pn cid = .ok (u, gs')) :
    ∃ player character,
      lookupA gs.players pn = some player ∧
      lookupA gs.characters cid = some character ∧
      gs' = { gs with
        players := insertA gs.players pn
          { player with
            currentCharacter := some character
            lastActiveAt := now
            currentZone := (startingLocation character.ctype).1
            currentSubZone := (startingLocation character.ctype).2 } } := by
  unfold SelectCharacterCore at h
  cases hp : lookupA gs.players pn with
  | none => rw [hp] at h; exact Except.noConfusion h
  | some player =>
    rw [hp] at h
    cases hc : lookupA gs.characters cid with
    | none => rw [hc] at h; exact Except.noConfusion h
    | some character =>
      rw [hc] at h
      simp only [Except.ok.injEq, Prod.mk.injEq] at h
      obtain ⟨-, h2⟩ := h
      subst h2
      exact ⟨player, character, rfl, rfl, rfl⟩

theorem setPlayerStatusCore_ok (gs : GameState) (now : Nat)
    (pn status : String) (u : Unit) (gs' : GameState)
    (h : SetPlayerStatusCore gs now pn status = .ok (u, gs')) :
    ∃ player,
      lookupA gs.players pn = some player ∧
      gs' = { gs with
        players := insertA gs.players pn
          { player with status := status, lastActiveAt := now } } := by
  unfold SetPlayerStatusCore at h
  cases hp : lookupA gs.players pn with
  | none => rw [hp] at h; exact Except.noConfusion h
  | some player =>
    rw [hp] at h
    dsimp only at h
    by_cases hv : status ≠ "active" ∧ status ≠ "sleeping" ∧ status ≠ "autopilot"
    · rw [if_pos hv] at h; exact Except.noConfusion h
    · rw [if_neg hv] at h
      simp only [Except.ok.injEq, Prod.mk.injEq] at h
      obtain ⟨-, h2⟩ := h
      subst h2
      exact ⟨player, rfl, rfl⟩

theorem performActionCore_ok (gs : GameState) (decisionId : String)
    (now : Nat) (pn aID : String) (outcome : Outcome) (gs' : GameState)
    (h : PerformActionCore gs decisionId now pn aID = .ok (outcome, gs')) :
    ∃ player character action zone subZone,
      lookupA gs.players pn = some player ∧
      player.currentCharacter = some character ∧
      lookupA gs.actions aID = some action ∧
      lookupA gs.zones player.currentZone = some zone ∧
      zone.subZones.find? (fun sz => sz.id == player.currentSubZone) =
        some subZone ∧
      subZone.availableActions.contains aID = true ∧
      outcome = computeOutcome action.baseOutcome
        (attributeValueOf character action.bonusAttribute)
        subZone.rewardMultiplier
        (character.favoriteActions.contains aID) ∧
      gs' = { gs with
        players := insertA gs.players pn
          (performedPlayer player outcome decisionId now aID action.name) } := by
  unfold PerformActionCore at h
  cases hp : lookupA gs.players pn with
  | none => rw [hp] at h; exact Except.noConfusion h
  | some player =>
    rw [hp] at h
    dsimp only at h
    cases hc : player.currentCharacter with
    | none => rw [hc] at h; exact Except.noConfusion h
    | some character =>
      rw [hc] at h
      dsimp only at h
      cases ha : lookupA gs.actions aID with
      | none => rw [ha] at h; exact Except.noConfusion h
      | some action =>
        rw [ha] at h
        dsimp only at h
        cases hz : lookupA gs.zones player.currentZone with
        | none => rw [hz] at h; exact Except.noConfusion h
        | some zone =>
          rw [hz] at h
          dsimp only at h
          cases hs : zone.subZones.find?
              (fun sz => sz.id == player.currentSubZone) with
          | none => rw [hs] at h; exact Except.noConfusion h
          | some subZone =>
            rw [hs] at h
            dsimp only at h
            by_cases hav : subZone.availableActions.contains aID = true
            · rw [if_pos hav] at h
              simp only [Except.ok.injEq, Prod.mk.injEq] at h
              obtain ⟨h1, h2⟩ := h
              subst h1
              subst h2
              exact ⟨player, character, action, zone, subZone,
                rfl, hc, rfl, hz, hs, hav, rfl, rfl⟩
            · rw [if_neg hav] at h; exact Except.noConfusion h

theorem generateEventCore_ok (gs : GameState) (now pick : Nat)
    (pn : String) (e : Event) (gs' : GameState)
    (h : GenerateEventCore gs now pick pn = .ok (e, gs')) :
    ∃ player,
      lookupA gs.players pn = some player ∧
      player.currentCharacter ≠ none ∧
      e ∈ (gs.events.map Prod.snd).filter (eventEligible player) ∧
      gs' = { gs with
        players := insertA gs.players pn
          { player with lastEventAt := now } } := by
  unfold GenerateEventCore at h
  cases hp : lookupA gs.players pn with
  | none => rw [hp] at h; exact Except.noConfusion h
  | some player =>
    rw [hp] at h
    dsimp only at h
    cases hc : player.currentCharacter with
    | none => rw [hc] at h; exact Except.noConfusion h
    | some character =>
      rw [hc] at h
      dsimp only at h
      by_cases hlen :
          ((gs.events.map Prod.snd).filter (eventEligible player)).length = 0
      · rw [dif_pos hlen] at h; exact Except.noConfusion h
      · rw [dif_neg hlen] at h
        simp only [Except.ok.injEq, Prod.mk.injEq] at h
        obtain ⟨h1, h2⟩ := h
        subst h2
        refine ⟨player, rfl, by simp [hc], ?_, ?_⟩
        · rw [← h1]
          exact List.get_mem _ _ _
        · rw [hc]

theorem processEventChoiceCore_ok (gs : GameState) (decisionId : String)
    (now : Nat) (die : Int) (pn eID oID : String) (outcome : Outcome)
    (gs' : GameState)
    (h : ProcessEventChoiceCore gs decisionId now die pn eID oID =
      .ok (outcome, gs')) :
    ∃ player character event selectedOption,
      lookupA gs.players pn = some player ∧
      player.currentCharacter = some character ∧
      lookupA gs.events eID = some event ∧
      event.options.find? (fun option => option.id == oID) =
        some selectedOption ∧
      outcome = (if die + attributeValueOf character
            selectedOption.requiredAttribute ≥ selectedOption.difficultyLevel
          then selectedOption.successOutcome
          else selectedOption.failureOutcome) ∧
      gs' = { gs with
        players := insertA gs.players pn
          (choicePlayer player outcome decisionId now eID oID
            (die + attributeValueOf character selectedOption.requiredAttribute)
            selectedOption.difficultyLevel) } := by
  unfold ProcessEventChoiceCore at h
  cases hp : lookupA gs.players pn with
  | none => rw [hp] at h; exact Except.noConfusion h
  | some player =>
    rw [hp] at h
    dsimp only at h
    cases hc : player.currentCharacter with
    | none => rw [hc] at h; exact Except.noConfusion h
    | some character =>
      rw [hc] at h
      dsimp only at h
      cases he : lookupA gs.events eID with
      | none => rw [he] at h; exact Except.noConfusion h
      | some event =>
        rw [he] at h
        dsimp only at h
        cases ho : event.options.find? (fun option => option.id == oID) with
        | none => rw [ho] at h; exact Except.noConfusion h
        | some selectedOption =>
          rw [ho] at h
          dsimp only at h
          simp only [Except.ok.injEq, Prod.mk.injEq] at h
          obtain ⟨h1, h2⟩ := h
          subst h1
          subst h2
          exact ⟨player, character, event, selectedOption,
            rfl, hc, rfl, ho, rfl, rfl⟩

/-! ## Operation sequences and the stress invariant -/

/-- One mutating call on the game manager, with the environment inputs
(clock, UUIDs, random draws, flush oracle) recorded in the constructor. -/
inductive Op where
  | register (cfg : Config) (saveOk : Bool) (id : String) (now : Nat)
      (phoneNumber name : String)
  | selectCharacter (saveOk : Bool) (now : Nat) (phoneNumber characterID : String)
  | performAction (saveOk : Bool) (decisionId : String) (now : Nat)
      (phoneNumber actionID : String)
  | generateEvent (saveOk : Bool) (now : Nat) (pick : Nat) (phoneNumber : String)
  | processEventChoice (saveOk : Bool) (decisionId : String) (now : Nat)
      (die : Int) (phoneNumber eventID optionID : String)
  | setPlayerStatus (saveOk : Bool) (now : Nat) (phoneNumber status : String)

/-- The state reached after one mutating call (its result discarded). -/
def applyOp (gs : GameState) : Op → GameState
  | .register cfg saveOk id now pn nm =>
    (RegisterPlayer gs cfg saveOk id now pn nm).2
  | .selectCharacter saveOk now pn cid =>
    (SelectCharacter gs saveOk now pn cid).2
  | .performAction saveOk decisionId now pn aID =>
    (PerformAction gs saveOk decisionId now pn aID).2
  | .generateEvent saveOk now pick pn =>
    (GenerateEvent gs saveOk now pick pn).2
  | .processEventChoice saveOk decisionId now die pn eID oID =>
    (ProcessEventChoice gs saveOk decisionId now die pn eID oID).2
  | .setPlayerStatus saveOk now pn status =>
    (SetPlayerStatus gs saveOk now pn status).2

/-- The state reached after a sequence of mutating calls. -/
def applyOps (gs : GameState) : List Op → GameState
  | [] => gs
  | op :: rest => applyOps (applyOp gs op) rest

/-- The invariant `0 ≤ stress ≤ 100` on one player record. -/
def stressInBounds (p : Player) : Bool :=
  decide (0 ≤ p.stress) && decide (p.stress ≤ 100)

/-- The invariant `0 ≤ stress ≤ 100` over every player in the store. -/
def stressOK (gs : GameState) : Bool :=
  gs.players.all fun kp => stressInBounds kp.2

theorem all_insertA {α : Type} (P : String × α → Bool)
    (l : List (String × α)) (k : String) (v : α)
    (hl : l.all P = true) (hv : P (k, v) = true) :
    (insertA l k v).all P = true := by
  induction l with
  | nil => simp [insertA, hv]
  | cons hd t ih =>
    obtain ⟨k0, v0⟩ := hd
    simp only [List.all_cons, Bool.and_eq_true] at hl
    obtain ⟨h1, h2⟩ := hl
    simp only [insertA]
    by_cases h0 : k0 = k
    · simp [h0, hv, h2]
    · simp [h0, h1, ih h2]

theorem lookupA_all {α : Type} (P : String × α → Bool)
    (l : List (String × α)) (k : String) (v : α)
    (hl : l.all P = true) (hk : lookupA l k = some v) :
    P (k, v) = true := by
  induction l with
  | nil => simp [lookupA] at hk
  | cons hd t ih =>
    obtain ⟨k0, v0⟩ := hd
    simp only [List.all_cons, Bool.and_eq_true] at hl
    obtain ⟨h1, h2⟩ := hl
    simp only [lookupA] at hk
    by_cases h0 : k0 = k
    · subst h0
      rw [if_pos rfl] at hk
      injection hk with hv0
      subst hv0
      exact h1
    · rw [if_neg h0] at hk
      exact ih h2 hk

theorem stressOK_applyOp (gs : GameState) (op : Op)
    (h : stressOK gs = true) : stressOK (applyOp gs op) = true := by
  cases op with
  | register cfg saveOk id now pn nm =>
    show stressOK (RegisterPlayer gs cfg saveOk id now pn nm).2 = true
    rw [RegisterPlayer, withSave_state]
    cases hc : RegisterPlayerCore gs cfg id now pn nm with
    | error e => simpa [withSave] using h
    | ok p =>
      obtain ⟨a, gs'⟩ := p
      obtain ⟨-, hs0, hgs'⟩ := registerPlayerCore_ok gs cfg id now pn nm a gs' hc
      subst hgs'
      simp only [withSave, if_pos]
      exact all_insertA _ _ _ _ h (by simp [stressInBounds, hs0])
  | selectCharacter saveOk now pn cid =>
    show stressOK (SelectCharacter gs saveOk now pn cid).2 = true
    rw [SelectCharacter, withSave_state]
    cases hc : SelectCharacterCore gs now pn cid with
    | error e => simpa [withSave] using h
    | ok p =>
      obtain ⟨a, gs'⟩ := p
      obtain ⟨player, character, hp, -, hgs'⟩ :=
        selectCharacterCore_ok gs now pn cid a gs' hc
      subst hgs'
      simp only [withSave, if_pos]
      refine all_insertA _ _ _ _ h ?_
      have := lookupA_all _ _ _ _ h hp
      simpa [stressInBounds] using this
  | performAction saveOk decisionId now pn aID =>
    show stressOK (PerformAction gs saveOk decisionId now pn aID).2 = true
    rw [PerformAction, withSave_state]
    cases hc : PerformActionCore gs decisionId now pn aID with
    | error e => simpa [withSave] using h
    | ok p =>
      obtain ⟨a, gs'⟩ := p
      obtain ⟨player, character, action, zone, subZone, -, -, -, -, -, -, -, hgs'⟩ :=
        performActionCore_ok gs decisionId now pn aID a gs' hc
      subst hgs'
      simp only [withSave, if_pos]
      refine all_insertA _ _ _ _ h ?_
      simp only [stressInBounds, performedPlayer, Bool.and_eq_true,
        decide_eq_true_eq]
      exact clampStress_bounds _
  | generateEvent saveOk now pick pn =>
    show stressOK (GenerateEvent gs saveOk now pick pn).2 = true
    rw [GenerateEvent, withSave_state]
    cases hc : GenerateEventCore gs now pick pn with
    | error e => simpa [withSave] using h
    | ok p =>
      obtain ⟨a, gs'⟩ := p
      obtain ⟨player, hp, -, -, hgs'⟩ :=
        generateEventCore_ok gs now pick pn a gs' hc
      subst hgs'
      simp only [withSave, if_pos]
      refine all_insertA _ _ _ _ h ?_
      have := lookupA_all _ _ _ _ h hp
      simpa [stressInBounds] using this
  | processEventChoice saveOk decisionId now die pn eID oID =>
    show stressOK (ProcessEventChoice gs saveOk decisionId now die pn eID oID).2 =
      true
    rw [ProcessEventChoice, withSave_state]
    cases hc : ProcessEventChoiceCore gs decisionId now die pn eID oID with
    | error e => simpa [withSave] using h
    | ok p =>
      obtain ⟨a, gs'⟩ := p
      obtain ⟨player, character, event, selectedOption, -, -, -, -, -, hgs'⟩ :=
        processEventChoiceCore_ok gs decisionId now die pn eID oID a gs' hc
      subst hgs'
      simp only [withSave, if_pos]
      refine all_insertA _ _ _ _ h ?_
      simp only [stressInBounds, choicePlayer, Bool.and_eq_true,
        decide_eq_true_eq]
      exact clampStress_bounds _
  | setPlayerStatus saveOk now pn status =>
    show stressOK (SetPlayerStatus gs saveOk now pn status).2 = true
    rw [SetPlayerStatus, withSave_state]
    cases hc : SetPlayerStatusCore gs now pn status with
    | error e => simpa [withSave] using h
    | ok p =>
      obtain ⟨a, gs'⟩ := p
      obtain ⟨player, hp, hgs'⟩ := setPlayerStatusCore_ok gs now pn status a gs' hc
      subst hgs'
      simp only [withSave, if_pos]
      refine all_insertA _ _ _ _ h ?_
      have := lookupA_all _ _ _ _ h hp
      simpa [stressInBounds] using this

/-! ## Claim theorems -/

/-- C1 (counterexample): a `RegisterPlayer` call whose persistence flush
fails returns the flush error, yet the store afterwards differs from the
store before the call — the in-memory mutation was not rolled back, so
the claim that the store after the failed call equals the store before
is false. -/
theorem c1_counterexample :
    (RegisterPlayer gsEmpty cfg0 false "id1" 0 "5521" "Alice").1 =
      .error "failed to save game state" ∧
    (RegisterPlayer gsEmpty cfg0 false "id1" 0 "5521" "Alice").2 ≠ gsEmpty := by
  decide

/-- C1 (amended): for every mutating operation on the player store
(`RegisterPlayer`, `SelectCharacter`, `PerformAction`,
`ProcessEventChoice`, `SetPlayerStatus`), if the synchronous persistence
flush fails the error is returned to the caller but the in-memory
mutation is NOT rolled back: the store after the failed call equals the
store after the corresponding successful call, and whenever the
successful call would return a value the failing call returns the
persistence error. -/
theorem c1_flush_failure_keeps_mutation :
    (∀ gs cfg id now pn nm,
      (RegisterPlayer gs cfg false id now pn nm).2 =
        (RegisterPlayer gs cfg true id now pn nm).2 ∧
      ∀ r, (RegisterPlayer gs cfg true id now pn nm).1 = .ok r →
        (RegisterPlayer gs cfg false id now pn nm).1 =
          .error "failed to save game state") ∧
    (∀ gs now pn cid,
      (SelectCharacter gs false now pn cid).2 =
        (SelectCharacter gs true now pn cid).2 ∧
      ∀ r, (SelectCharacter gs true now pn cid).1 = .ok r →
        (SelectCharacter gs false now pn cid).1 =
          .error "failed to save game state") ∧
    (∀ gs decisionId now pn aID,
      (PerformAction gs false decisionId now pn aID).2 =
        (PerformAction gs true decisionId now pn aID).2 ∧
      ∀ r, (PerformAction gs true decisionId now pn aID).1 = .ok r →
        (PerformAction gs false decisionId now pn aID).1 =
          .error "failed to save game state") ∧
    (∀ gs decisionId now die pn eID oID,
      (ProcessEventChoice gs false decisionId now die pn eID oID).2 =
        (ProcessEventChoice gs true decisionId now die pn eID oID).2 ∧
      ∀ r, (ProcessEventChoice gs true decisionId now die pn eID oID).1 =
          .ok r →
        (ProcessEventChoice gs false decisionId now die pn eID oID).1 =
          .error "failed to save game state") ∧
    (∀ gs now pn status,
      (SetPlayerStatus gs false now pn status).2 =
        (SetPlayerStatus gs true now pn status).2 ∧
      ∀ r, (SetPlayerStatus gs true now pn status).1 = .ok r →
        (SetPlayerStatus gs false now pn status).1 =
          .error "failed to save game state") :=
  ⟨fun gs cfg id now pn nm =>
    ⟨withSave_state gs false _, fun r hr => withSave_fail gs _ r hr⟩,
   fun gs now pn cid =>
    ⟨withSave_state gs false _, fun r hr => withSave_fail gs _ r hr⟩,
   fun gs decisionId now pn aID =>
    ⟨withSave_state gs false _, fun r hr => withSave_fail gs _ r hr⟩,
   fun gs decisionId now die pn eID oID =>
    ⟨withSave_state gs false _, fun r hr => withSave_fail gs _ r hr⟩,
   fun gs now pn status =>
    ⟨withSave_state gs false _, fun r hr => withSave_fail gs _ r hr⟩⟩

/-- C1 (witness): the amended theorem applied to a concrete failing
registration: the successful call returns the created player, and the
failing call keeps the same mutated store while returning the
persistence error. -/
theorem c1_flush_failure_keeps_mutation_witness :
    (RegisterPlayer gsEmpty cfg0 true "id1" 0 "5521" "Alice").1 =
      .ok regPlayer1 ∧
    (RegisterPlayer gsEmpty cfg0 false "id1" 0 "5521" "Alice").2 =
      (RegisterPlayer gsEmpty cfg0 true "id1" 0 "5521" "Alice").2 ∧
    (RegisterPlayer gsEmpty cfg0 false "id1" 0 "5521" "Alice").1 =
      .error "failed to save game state" :=
  ⟨by decide,
   (c1_flush_failure_keeps_mutation.1 gsEmpty cfg0 "id1" 0 "5521" "Alice").1,
   (c1_flush_failure_keeps_mutation.1 gsEmpty cfg0 "id1" 0 "5521" "Alice").2
     regPlayer1 (by decide)⟩

/-- C2: `GenerateEvent` succeeds and returns the selected event, yet
the player's pending-event field (`CurrentEvent`) still holds `none`
afterwards — the selected event is never stored as the player's pending
event, although the transport layer's event-response handler depends on
that field being set; the code evaluated at this failing input
demonstrates the bug. -/
theorem c2_pending_event_never_stored :
    (GenerateEvent gsA true 5 0 "5521").1 = .ok ev1 ∧
    ((lookupA (GenerateEvent gsA true 5 0 "5521").2.players "5521").map
      fun p => p.currentEvent) = some none := by
  decide

/-- C2 (amended): `GenerateEvent` never writes the selected event into
any player's `CurrentEvent` field (nor clears a prior one): every
player's pending-event field is exactly what it was before the call; the
selected event is only returned to the caller. -/
theorem c2_generate_event_leaves_pending_unchanged (gs : GameState)
    (saveOk : Bool) (now pick : Nat) (pn k : String) :
    ((lookupA (GenerateEvent gs saveOk now pick pn).2.players k).map
      fun p => p.currentEvent) =
    ((lookupA gs.players k).map fun p => p.currentEvent) := by
  rw [GenerateEvent, withSave_state]
  cases hc : GenerateEventCore gs now pick pn with
  | error e => rfl
  | ok p =>
    obtain ⟨ev, gs'⟩ := p
    obtain ⟨player, hp, -, -, hgs'⟩ := generateEventCore_ok gs now pick pn ev gs' hc
    subst hgs'
    simp only [withSave, if_pos]
    rw [lookupA_insertA]
    by_cases hk : pn = k
    · subst hk
      rw [if_pos rfl, hp]
      rfl
    · rw [if_neg hk]

/-- C3: starting from any store in which every player's stress lies in
[0,100] (registration creates players with stress 0), every sequence of
mutating operations — in particular `PerformAction` and
`ProcessEventChoice`, which clamp stress into [0,100] after applying the
outcome's delta — preserves the bound: afterwards every player's stress
still satisfies `0 ≤ stress ≤ 100`. -/
theorem c3_stress_always_bounded (gs : GameState) (ops : List Op)
    (h : stressOK gs = true) :
    stressOK (applyOps gs ops) = true ∧
    ∀ k p, lookupA (applyOps gs ops).players k = some p →
      0 ≤ p.stress ∧ p.stress ≤ 100 := by
  have hall : stressOK (applyOps gs ops) = true := by
    induction ops generalizing gs with
    | nil => exact h
    | cons op rest ih => exact ih _ (stressOK_applyOp gs op h)
  refine ⟨hall, fun k p hk => ?_⟩
  have := lookupA_all _ _ _ _ hall hk
  simpa [stressInBounds] using this

/-- C3 (witness): a concrete run — registration, character selection, an
action, an event choice and a status change — starting from the fixture
catalog with no players, keeps every player's stress within bounds. -/
theorem c3_stress_always_bounded_witness :
    stressOK gsCat = true ∧
    stressOK (applyOps gsCat
      [Op.register cfg0 true "id1" 0 "5521" "Alice",
       Op.selectCharacter true 1 "5521" "char1",
       Op.performAction true "d1" 2 "5521" "acao1",
       Op.generateEvent true 3 0 "5521",
       Op.processEventChoice true "d2" 4 11 "5521" "ev1" "opt_a",
       Op.setPlayerStatus true 5 "5521" "autopilot"]) = true :=
  ⟨by decide,
   (c3_stress_always_bounded gsCat
      [Op.register cfg0 true "id1" 0 "5521" "Alice",
       Op.selectCharacter true 1 "5521" "char1",
       Op.performAction true "d1" 2 "5521" "acao1",
       Op.generateEvent true 3 0 "5521",
       Op.processEventChoice true "d2" 4 11 "5521" "ev1" "opt_a",
       Op.setPlayerStatus true 5 "5521" "autopilot"] (by decide)).1⟩

/-- C4: `PerformAction`'s reward scaling multiplies the base outcome's
experience/currency/influence deltas — never the stress delta — first by
`(1 + attribute/100)`, then by `(1 + subzoneRewardMultiplier/100)`, then
by 1.2 when the action is a favorite, truncating toward zero at each
step; concretely, Proficiency 4, base xp +10, subzone multiplier 100 and
favorite action yield an applied xp delta of 24 end-to-end. -/
theorem c4_reward_scaling_order :
    (∀ (base : Outcome) (a m : Int),
      computeOutcome base a m false =
        { base with
          xpChange := scaleTrunc (scaleTrunc base.xpChange a) m
          moneyChange := scaleTrunc (scaleTrunc base.moneyChange a) m
          influenceChange := scaleTrunc (scaleTrunc base.influenceChange a) m }) ∧
    (∀ (base : Outcome) (a m : Int),
      computeOutcome base a m true =
        { base with
          xpChange := favScale (scaleTrunc (scaleTrunc base.xpChange a) m)
          moneyChange := favScale (scaleTrunc (scaleTrunc base.moneyChange a) m)
          influenceChange :=
            favScale (scaleTrunc (scaleTrunc base.influenceChange a) m) }) ∧
    (PerformAction gsA true "d1" 1 "5521" "acao1").1.map (fun o => o.xpChange) =
      .ok 24 :=
  ⟨fun base a m => rfl, fun base a m => rfl, by decide⟩

/-- C5: for a player with an assigned character choosing an existing
option of an existing event, `ProcessEventChoice` applies the option's
success outcome exactly when the d20 die value plus the character's
value for the option's checked attribute is at least the option's
difficulty level, and the failure outcome otherwise. -/
theorem c5_event_choice_threshold (gs : GameState) (decisionId : String)
    (now : Nat) (die : Int) (pn eID oID : String) (player : Player)
    (character : Character) (event : Event) (opt : EventOption)
    (h1 : lookupA gs.players pn = some player)
    (h2 : player.currentCharacter = some character)
    (h3 : lookupA gs.events eID = some event)
    (h4 : event.options.find? (fun option => option.id == oID) = some opt)
    (h5 : 1 ≤ die) (h6 : die ≤ 20) :
    (ProcessEventChoice gs true decisionId now die pn eID oID).1 =
      .ok (if die + attributeValueOf character opt.requiredAttribute ≥
            opt.difficultyLevel
          then opt.successOutcome else opt.failureOutcome) := by
  unfold ProcessEventChoice ProcessEventChoiceCore
  rw [h1]
  dsimp only
  rw [h2]
  dsimp only
  rw [h3]
  dsimp only
  rw [h4]
  rfl

/-- C5 (witness): the boundary scenario — attribute 3 (Charisma of
`char1`), difficulty 14: a die of 11 makes the sum exactly 14 and yields
the success outcome, a die of 10 yields the failure outcome. -/
theorem c5_event_choice_threshold_witness :
    lookupA gsA.players "5521" = some player1 ∧
    player1.currentCharacter = some char1 ∧
    lookupA gsA.events "ev1" = some ev1 ∧
    ev1.options.find? (fun option => option.id == "opt_a") = some optA ∧
    (ProcessEventChoice gsA true "d2" 3 11 "5521" "ev1" "opt_a").1 =
      .ok optA.successOutcome ∧
    (ProcessEventChoice gsA true "d2" 3 10 "5521" "ev1" "opt_a").1 =
      .ok optA.failureOutcome := by
  refine ⟨by decide, by decide, by decide, by decide, ?_, ?_⟩
  · rw [c5_event_choice_threshold gsA "d2" 3 11 "5521" "ev1" "opt_a" player1
      char1 ev1 optA (by decide) (by decide) (by decide) (by decide)
      (by decide) (by decide)]
    decide
  · rw [c5_event_choice_threshold gsA "d2" 3 10 "5521" "ev1" "opt_a" player1
      char1 ev1 optA (by decide) (by decide) (by decide) (by decide)
      (by decide) (by decide)]
    decide

theorem eventEligible_iff (player : Player) (event : Event) :
    eventEligible player event = true ↔
      (event.minXP ≤ player.xp ∧ event.minMoney ≤ player.money ∧
       event.minInfluence ≤ player.influence ∧
       (event.requiredZone = [] ∨ player.currentZone ∈ event.requiredZone)) := by
  unfold eventEligible
  by_cases hx : player.xp < event.minXP ∨ player.money < event.minMoney ∨
      player.influence < event.minInfluence
  · rw [if_pos (by simpa [or_assoc] using hx)]
    simp only [Bool.false_eq_true, false_iff]
    rintro ⟨a, b, c, -⟩
    omega
  · rw [if_neg (by simpa [or_assoc] using hx)]
    push_neg at hx
    obtain ⟨a, b, c⟩ := hx
    by_cases hl : event.requiredZone.length > 0
    · rw [if_pos (by simpa using hl)]
      have hne : event.requiredZone ≠ [] := by
        intro h0
        rw [h0] at hl
        simp at hl
      constructor
      · intro hcont
        exact ⟨by omega, by omega, by omega,
          Or.inr (by simpa using hcont)⟩
      · rintro ⟨-, -, -, hz | hz⟩
        · exact absurd hz hne
        · simpa using hz
    · rw [if_neg (by simpa using hl)]
      have hnil : event.requiredZone = [] := by
        cases hzl : event.requiredZone with
        | nil => rfl
        | cons z zs => rw [hzl] at hl; simp at hl
      simp [hnil]
      omega

/-- C6: `GenerateEvent`'s eligibility filter holds exactly when the
player's experience, currency and influence each meet-or-exceed the
event's minimums and the event's required-zone list is empty or contains
the player's current zone; when no loaded event passes the filter the
call returns the no-eligible-events error, and any event it returns
passes the filter. -/
theorem c6_eligibility_filter (gs : GameState) (saveOk : Bool)
    (now pick : Nat) (pn : String) (player : Player) (character : Character)
    (h1 : lookupA gs.players pn = some player)
    (h2 : player.currentCharacter = some character) :
    (∀ event : Event, eventEligible player event = true ↔
      (event.minXP ≤ player.xp ∧ event.minMoney ≤ player.money ∧
       event.minInfluence ≤ player.influence ∧
       (event.requiredZone = [] ∨ player.currentZone ∈ event.requiredZone))) ∧
    (((gs.events.map Prod.snd).filter (eventEligible player)).length = 0 →
      (GenerateEvent gs saveOk now pick pn).1 =
        .error "no eligible events found for player" ∧
      (GenerateEvent gs saveOk now pick pn).2 = gs) ∧
    (∀ e : Event, (GenerateEvent gs saveOk now pick pn).1 = .ok e →
      eventEligible player e = true) := by
  refine ⟨fun event => eventEligible_iff player event, ?_, ?_⟩
  · intro hlen
    have hcore : GenerateEventCore gs now pick pn =
        .error "no eligible events found for player" := by
      unfold GenerateEventCore
      rw [h1]
      dsimp only
      rw [h2]
      dsimp only
      rw [dif_pos hlen]
    rw [GenerateEvent, hcore]
    cases saveOk <;> exact ⟨rfl, rfl⟩
  · intro e he
    cases saveOk with
    | false =>
      exfalso
      rw [GenerateEvent] at he
      cases hc : GenerateEventCore gs now pick pn with
      | error er => rw [hc] at he; exact Except.noConfusion he
      | ok p =>
        obtain ⟨ev, gs'⟩ := p
        rw [hc] at he
        exact Except.noConfusion he
    | true =>
      have hcore := withSave_ok gs (GenerateEventCore gs now pick pn) e he
      obtain ⟨player', hp', -, hmem, -⟩ :=
        generateEventCore_ok gs now pick pn e _ hcore
      rw [h1] at hp'
      injection hp' with hpp
      subst hpp
      exact (List.mem_filter.mp hmem).2

/-- C6 (witness): with only an event whose XP minimum is 1000000 loaded
and a player with 0 XP, the eligible set is empty and `GenerateEvent`
returns the no-eligible-events error. -/
theorem c6_eligibility_filter_witness :
    lookupA gsHard.players "5521" = some player1 ∧
    player1.currentCharacter = some char1 ∧
    ((gsHard.events.map Prod.snd).filter (eventEligible player1)).length = 0 ∧
    (GenerateEvent gsHard true 7 0 "5521").1 =
      .error "no eligible events found for player" :=
  ⟨by decide, by decide, by decide,
   ((c6_eligibility_filter gsHard true 7 0 "5521" player1 char1 (by decide)
     (by decide)).2.1 (by decide)).1⟩

/-- C7 (counterexample): an event with an empty required-zone list and
zero minimums is eligible for — and is returned by — the Event
Resolver's `GenerateEvent`, yet the scheduler's `TriggerRandomEvent`
cannot return it for the same player: its candidate set is empty and it
fails, so the two selections are not equivalent. -/
theorem c7_counterexample :
    eventEligible player1 ev1 = true ∧
    (GenerateEvent gsA true 5 0 "5521").1 = .ok ev1 ∧
    ((gsA.events.map Prod.snd).filter (eventAvailableForZone player1)).length =
      0 ∧
    TriggerRandomEvent gsA 0 "p1" =
      .error "no events available for current zone" := by
  decide

/-- C7 (amended): the set of events `TriggerRandomEvent` can return for
a player is exactly the set whose required-zone list contains the
player's current zone — it ignores the experience/currency/influence
minimums of `GenerateEvent`'s filter and treats an empty required-zone
list as matching no zone, so it is not equivalent to the resolver's
eligibility filter. -/
theorem c7_trigger_filters_by_zone_only (gs : GameState) (playerID : String)
    (player : Player)
    (h : (gs.players.map Prod.snd).find? (fun p => p.id == playerID) =
      some player) :
    ∀ e : Event, (∃ pick, TriggerRandomEvent gs pick playerID = .ok e) ↔
      e ∈ (gs.events.map Prod.snd).filter (eventAvailableForZone player) := by
  intro e
  unfold TriggerRandomEvent
  rw [h]
  dsimp only
  constructor
  · rintro ⟨pick, hpick⟩
    by_cases hlen :
        ((gs.events.map Prod.snd).filter (eventAvailableForZone player)).length = 0
    · rw [dif_pos hlen] at hpick
      exact Except.noConfusion hpick
    · rw [dif_neg hlen] at hpick
      injection hpick with h2
      rw [← h2]
      exact List.get_mem _ _ _
  · intro hmem
    obtain ⟨n, hn⟩ := List.mem_iff_get.mp hmem
    have hlen :
        ¬ ((gs.events.map Prod.snd).filter (eventAvailableForZone player)).length
          = 0 := by
      intro h0
      rw [List.length_eq_zero] at h0
      rw [h0] at hmem
      exact absurd hmem (List.not_mem_nil e)
    refine ⟨n.val, ?_⟩
    rw [dif_neg hlen]
    refine congrArg Except.ok ?_
    rw [← hn]
    congr 1
    exact Fin.eq_of_val_eq (Nat.mod_eq_of_lt n.isLt)

/-- C7 (witness): for a state whose only event is zone-gated to
`copacabana` (the player's zone) but has an XP minimum of 1000000 that
the player fails, the amended characterization holds: the event is in
the scheduler's returnable set even though the resolver's minimums
reject it. -/
theorem c7_trigger_filters_by_zone_only_witness :
    (gsB.players.map Prod.snd).find? (fun p => p.id == "p1") = some player1 ∧
    eventEligible player1 evZona = false ∧
    ((∃ pick, TriggerRandomEvent gsB pick "p1" = .ok evZona) ↔
      evZona ∈ (gsB.events.map Prod.snd).filter (eventAvailableForZone player1)) :=
  ⟨by decide, by decide,
   c7_trigger_filters_by_zone_only gsB "p1" player1 (by decide) evZona⟩

/-- `player1` after `SelectCharacter` assigns `char1` at time 1:
type `nerd_hacker` puts the player at `copacabana`/`praia`. -/
def selPlayer1 : Player :=
  { player1 with currentCharacter := some char1, lastActiveAt := 1 }

/-- C8 (counterexample): after a successful `SelectCharacter` assigning
`char1`, a second successful `SelectCharacter` with a different existing
character `char2` changes the player's assigned character to `char2` —
the assignment is not set-exactly-once, refuting the claim at this
concrete input. -/
theorem c8_counterexample :
    (SelectCharacter gsA true 1 "5521" "char1").1 = .ok () ∧
    ((lookupA (SelectCharacter gsA true 1 "5521" "char1").2.players "5521").map
      fun p => p.currentCharacter) = some (some char1) ∧
    (SelectCharacter (SelectCharacter gsA true 1 "5521" "char1").2 true 2
      "5521" "char2").1 = .ok () ∧
    ((lookupA (SelectCharacter (SelectCharacter gsA true 1 "5521" "char1").2
        true 2 "5521" "char2").2.players "5521").map
      fun p => p.currentCharacter) = some (some char2) ∧
    char2 ≠ char1 := by
  decide

/-- C8 (amended): `SelectCharacter` assigns unconditionally — whenever
the player and the character exist, the call succeeds and afterwards the
player's assigned character is the requested one, regardless of any
previous assignment; so a later call with a different character
reassigns the player's character. -/
theorem c8_select_character_reassigns (gs : GameState) (now : Nat)
    (pn cid : String) (player : Player) (character : Character)
    (h1 : lookupA gs.players pn = some player)
    (h2 : lookupA gs.characters cid = some character) :
    (SelectCharacter gs true now pn cid).1 = .ok () ∧
    ((lookupA (SelectCharacter gs true now pn cid).2.players pn).map
      fun p => p.currentCharacter) = some (some character) := by
  unfold SelectCharacter SelectCharacterCore
  rw [h1]
  dsimp only
  rw [h2]
  dsimp only
  refine ⟨rfl, ?_⟩
  simp only [withSave]
  rw [if_pos trivial]
  dsimp only
  rw [lookupA_insertA, if_pos rfl]
  rfl

/-- C8 (witness): the amended theorem applied after a first assignment —
the second call with `char2` succeeds and reassigns. -/
theorem c8_select_character_reassigns_witness :
    lookupA (SelectCharacter gsA true 1 "5521" "char1").2.players "5521" =
      some selPlayer1 ∧
    lookupA (SelectCharacter gsA true 1 "5521" "char1").2.characters "char2" =
      some char2 ∧
    ((SelectCharacter (SelectCharacter gsA true 1 "5521" "char1").2 true 2
        "5521" "char2").1 = .ok () ∧
      ((lookupA (SelectCharacter (SelectCharacter gsA true 1 "5521" "char1").2
          true 2 "5521" "char2").2.players "5521").map
        fun p => p.currentCharacter) = some (some char2)) :=
  ⟨by decide, by decide,
   c8_select_character_reassigns (SelectCharacter gsA true 1 "5521" "char1").2
     2 "5521" "char2" selPlayer1 char2 (by decide) (by decide)⟩

/-- C9: every successful `PerformAction` or `ProcessEventChoice` call
appends exactly one Decision record to the player's decision history,
and that record's experience/currency/influence/stress deltas equal the
deltas of the Outcome the call returns. -/
theorem c9_decision_record_appended :
    (∀ gs decisionId now pn aID outcome,
      (PerformAction gs true decisionId now pn aID).1 = .ok outcome →
      ∃ player player' d,
        lookupA gs.players pn = some player ∧
        lookupA (PerformAction gs true decisionId now pn aID).2.players pn =
          some player' ∧
        player'.decisionHistory = player.decisionHistory ++ [d] ∧
        d.xpChange = outcome.xpChange ∧
        d.moneyChange = outcome.moneyChange ∧
        d.influenceChange = outcome.influenceChange ∧
        d.stressChange = outcome.stressChange) ∧
    (∀ gs decisionId now die pn eID oID outcome,
      (ProcessEventChoice gs true decisionId now die pn eID oID).1 =
        .ok outcome →
      ∃ player player' d,
        lookupA gs.players pn = some player ∧
        lookupA (ProcessEventChoice gs true decisionId now die pn
          eID oID).2.players pn = some player' ∧
        player'.decisionHistory = player.decisionHistory ++ [d] ∧
        d.xpChange = outcome.xpChange ∧
        d.moneyChange = outcome.moneyChange ∧
        d.influenceChange = outcome.influenceChange ∧
        d.stressChange = outcome.stressChange) := by
  constructor
  · intro gs decisionId now pn aID outcome h
    unfold PerformAction at h ⊢
    have hcore := withSave_ok gs (PerformActionCore gs decisionId now pn aID)
      outcome h
    obtain ⟨player, character, action, zone, subZone, hp, -, -, -, -, -, -, hgs⟩ :=
      performActionCore_ok gs decisionId now pn aID outcome _ hcore
    rw [hgs]
    refine ⟨player,
      performedPlayer player outcome decisionId now aID action.name,
      { id := decisionId, eventID := "action_" ++ aID, choice := aID,
        timestamp := now, outcome := action.name,
        xpChange := outcome.xpChange, moneyChange := outcome.moneyChange,
        influenceChange := outcome.influenceChange,
        stressChange := outcome.stressChange },
      hp, ?_, rfl, rfl, rfl, rfl, rfl⟩
    dsimp only
    rw [lookupA_insertA, if_pos rfl]
  · intro gs decisionId now die pn eID oID outcome h
    unfold ProcessEventChoice at h ⊢
    have hcore := withSave_ok gs
      (ProcessEventChoiceCore gs decisionId now die pn eID oID) outcome h
    obtain ⟨player, character, event, selectedOption, hp, -, -, -, -, hgs⟩ :=
      processEventChoiceCore_ok gs decisionId now die pn eID oID outcome _ hcore
    rw [hgs]
    refine ⟨player,
      choicePlayer player outcome decisionId now eID oID
        (die + attributeValueOf character selectedOption.requiredAttribute)
        selectedOption.difficultyLevel,
      _, hp, ?_, rfl, rfl, rfl, rfl, rfl⟩
    dsimp only
    rw [lookupA_insertA, if_pos rfl]

/-- C9 (witness): the theorem applied to a concrete successful
`PerformAction` call on the fixture state. -/
theorem c9_decision_record_appended_witness :
    (PerformAction gsA true "d1" 1 "5521" "acao1").1 =
      .ok (computeOutcome baseOut1 4 100 true) ∧
    ∃ player player' d,
      lookupA gsA.players "5521" = some player ∧
      lookupA (PerformAction gsA true "d1" 1 "5521" "acao1").2.players
        "5521" = some player' ∧
      player'.decisionHistory = player.decisionHistory ++ [d] ∧
      d.xpChange = (computeOutcome baseOut1 4 100 true).xpChange ∧
      d.moneyChange = (computeOutcome baseOut1 4 100 true).moneyChange ∧
      d.influenceChange = (computeOutcome baseOut1 4 100 true).influenceChange ∧
      d.stressChange = (computeOutcome baseOut1 4 100 true).stressChange :=
  ⟨by decide,
   c9_decision_record_appended.1 gsA "d1" 1 "5521" "acao1"
     (computeOutcome baseOut1 4 100 true) (by decide)⟩

/-- C10: `ProcessEventChoice` adopts a chosen outcome's non-empty
`NewZone` as the player's current zone without consulting the zone
catalog; concretely, an outcome naming the uncataloged zone
`terra_do_nunca` succeeds and leaves the player where a subsequent
`PerformAction` fails with the invalid-player-zone error. -/
theorem c10_unvalidated_zone_move :
    (∀ gs decisionId now die pn eID oID outcome,
      (ProcessEventChoice gs true decisionId now die pn eID oID).1 =
        .ok outcome →
      outcome.newZone ≠ "" →
      ∃ player', lookupA (ProcessEventChoice gs true decisionId now die pn
          eID oID).2.players pn = some player' ∧
        player'.currentZone = outcome.newZone) ∧
    ((ProcessEventChoice gsA true "d2" 3 11 "5521" "ev1" "opt_a").1 =
        .ok optA.successOutcome ∧
      lookupA gsA.zones "terra_do_nunca" = none ∧
      (PerformAction (ProcessEventChoice gsA true "d2" 3 11 "5521" "ev1"
          "opt_a").2 true "d3" 4 "5521" "acao1").1 =
        .error "invalid player zone") := by
  constructor
  · intro gs decisionId now die pn eID oID outcome h hne
    unfold ProcessEventChoice at h ⊢
    have hcore := withSave_ok gs
      (ProcessEventChoiceCore gs decisionId now die pn eID oID) outcome h
    obtain ⟨player, character, event, selectedOption, hp, -, -, -, -, hgs⟩ :=
      processEventChoiceCore_ok gs decisionId now die pn eID oID outcome _ hcore
    rw [hgs]
    refine ⟨choicePlayer player outcome decisionId now eID oID
      (die + attributeValueOf character selectedOption.requiredAttribute)
      selectedOption.difficultyLevel, ?_, ?_⟩
    · dsimp only
      rw [lookupA_insertA, if_pos rfl]
    · simp [choicePlayer, hne]
  · exact ⟨by decide, by decide, by decide⟩

/-- C10 (witness): the general part applied to the concrete event choice
whose success outcome names `terra_do_nunca`. -/
theorem c10_unvalidated_zone_move_witness :
    (ProcessEventChoice gsA true "d2" 3 11 "5521" "ev1" "opt_a").1 =
      .ok optA.successOutcome ∧
    optA.successOutcome.newZone ≠ "" ∧
    ∃ player', lookupA (ProcessEventChoice gsA true "d2" 3 11 "5521" "ev1"
        "opt_a").2.players "5521" = some player' ∧
      player'.currentZone = optA.successOutcome.newZone :=
  ⟨by decide, by decide,
   c10_unvalidated_zone_move.1 gsA "d2" 3 11 "5521" "ev1" "opt_a"
     optA.successOutcome (by decide) (by decide)⟩

end VidaLoka
